import Mathlib

/-!
Verification of the decoding engine in `wenet/LLM/causal_model.py`
(`CausalLM.generate` and the attributes set by `CausalLM.__init__`).

Tensors that `generate` manipulates are two-dimensional integer grids;
they are embedded as `List (List Int)`.  Python-level failures
(`AttributeError`, `AssertionError` from the capacity `assert`,
`ValueError` from `min()` on an empty batch, shape mismatches in
`torch.cat`, out-of-range indices in `index_select`/`index_copy_`)
are embedded as `Except PyError`.  The external collaborators (the
`DecoderOnly` network composed with the `sampler`) are abstracted as an
oracle `next : Nat → Nat → Int` giving the token the sampler would
return at a given step for a given example; every theorem below holds
for every oracle, so nothing depends on the network's numerics.
-/

namespace Wenet

instance {ε α : Type} [DecidableEq ε] [DecidableEq α] : DecidableEq (Except ε α)
  | .ok a, .ok b =>
      if h : a = b then isTrue (congrArg Except.ok h)
      else isFalse (fun hc => h (Except.ok.inj hc))
  | .ok _, .error _ => isFalse (fun hc => Except.noConfusion hc)
  | .error _, .ok _ => isFalse (fun hc => Except.noConfusion hc)
  | .error e, .error f =>
      if h : e = f then isTrue (congrArg Except.error h)
      else isFalse (fun hc => h (Except.error.inj hc))

/-- Modelled from the spec: the sentinel/ignore id (`IGNORE_ID` from
`wenet.utils.common`, which is outside `src/`): a placeholder token id
distinct from every valid token id (valid ids lie in `[0, vocab_size)`),
used to pre-fill unwritten buffer positions. -/
def IGNORE_ID : Int := -1

/-- The Python-level failures `generate` can run into. -/
inductive PyError where
  /-- `min()` / `max()` over an empty generator (zero prompts). -/
  | emptyBatch
  /-- the `assert max_seq_len <= self.decoder.pos_enc.max_len` failing. -/
  | configurationError
  /-- reading an attribute that the object does not have. -/
  | attributeError : String → PyError
  /-- a `torch.cat` between tensors whose non-concatenated sizes differ. -/
  | shapeError
  /-- an `index_select` / `index_copy_` index outside the tensor. -/
  | indexError
deriving DecidableEq, Repr

/-- Modelled from the spec: the static buffer-sizing properties the engine
reads off the external `DecoderOnly` collaborator (`wenet/LLM/decoder.py`
is outside `src/`): `pos_enc.max_len`, `n_kv_head` and `head_dim`. -/
structure DecoderOnly where
  pos_enc_max_len : Nat
  n_kv_head : Nat
  head_dim : Nat
deriving DecidableEq, Repr

/-- The attributes `CausalLM.__init__` assigns on `self`, in source order:
`embed`, `out`, `decoder`, `sos`, `eos`, `vocab_size`, `criterion_att`,
`tie_word_embedding`, `ignore_id`. -/
def causalLMAttrs : List String :=
  ["embed", "out", "decoder", "sos", "eos", "vocab_size", "criterion_att",
   "tie_word_embedding", "ignore_id"]

/-- Reading `self.config.num_hidden_layers` (the loop header of the KV-cache
build): an `AttributeError` unless `"config"` is among the object's
attributes.  `wouldBe` is the value the attribute would hold if present. -/
def readConfigLayers (attrs : List String) (wouldBe : Nat) : Except PyError Nat :=
  if "config" ∈ attrs then .ok wouldBe else .error (.attributeError "config")

/-- `min(len(p) for p in prompts_tokens)`, total version (0 on `[]`). -/
def minPromptLen : List (List Int) → Nat
  | [] => 0
  | p :: ps => ps.foldl (fun acc q => Nat.min acc q.length) p.length

/-- `max(len(p) for p in prompts_tokens)`, total version (0 on `[]`). -/
def maxPromptLen : List (List Int) → Nat
  | [] => 0
  | p :: ps => ps.foldl (fun acc q => Nat.max acc q.length) p.length

/-- `min(len(p) for p in prompts_tokens)`: `ValueError` on an empty batch. -/
def minPromptLenE (prompts : List (List Int)) : Except PyError Nat :=
  match prompts with
  | [] => .error .emptyBatch
  | _ :: _ => .ok (minPromptLen prompts)

/-- `max(len(p) for p in prompts_tokens)`: `ValueError` on an empty batch. -/
def maxPromptLenE (prompts : List (List Int)) : Except PyError Nat :=
  match prompts with
  | [] => .error .emptyBatch
  | _ :: _ => .ok (maxPromptLen prompts)

/-- A zero-initialised 4-D cache buffer: `torch.zeros(size=(b, h, l, d))`.
The shape is kept symbolically together with the flat (all-zero) payload. -/
structure Tensor4 where
  dim0 : Nat
  dim1 : Nat
  dim2 : Nat
  dim3 : Nat
  data : List Int
deriving DecidableEq, Repr

/-- `torch.zeros(size=(b, h, l, d))`. -/
def zeros4 (b h l d : Nat) : Tensor4 :=
  ⟨b, h, l, d, List.replicate (b * h * l * d) 0⟩

/-- The dynamic type of the Python variable `kv_caches`: it starts as a
list of (key, value) pairs and may be rebound to a single pair. -/
inductive KVCaches where
  | list : List (Tensor4 × Tensor4) → KVCaches
  | pair : Tensor4 × Tensor4 → KVCaches
deriving DecidableEq, Repr

/-- The KV-cache build loop of `generate` (lines 101-108): starting from
`kv_caches = []`, each of the `numLayers` iterations allocates a zero
(key, value) pair of shape `(batch, n_kv_head, min_prompt_len, head_dim)`
and rebinds `kv_caches = (k_cache, v_cache)` (the source assigns, it does
not append). -/
def buildKvCaches (numLayers batch nKvHead minLen headDim : Nat) : KVCaches :=
  (List.range numLayers).foldl
    (fun _ _ => KVCaches.pair (zeros4 batch nKvHead minLen headDim,
                               zeros4 batch nKvHead minLen headDim))
    (KVCaches.list [])

/-- `torch.cat([a, b], dim=-1)` on 2-D tensors: requires the first
dimensions to agree, then concatenates the rows pointwise. -/
def catDim1 (a b : List (List Int)) : Except PyError (List (List Int)) :=
  if a.length = b.length then .ok (List.zipWith (· ++ ·) a b) else .error .shapeError

/-- The input-preparation block of `generate` (lines 110-128): builds
`token_ids_tensor` of width `max_prompt_len` (sentinel-filled, prompts
written left-aligned) and `input_token_ids_tensor` of width
`min_prompt_len` (the first `min_prompt_len` tokens of each prompt); then
the sos tensor `torch.tensor([sos] * batch).unsqueeze(0)` — shape
`(1, batch)` — is concatenated along the last dimension first with
`token_ids_tensor` and then (the source's second `torch.cat` again reads
`token_ids_tensor`, which has just been rebound) with the updated
`token_ids_tensor`; the separately built `input_token_ids_tensor` is
discarded.  Returns the pair (token buffer, initial decoder input). -/
def buildBuffers (sosTok : Int) (prompts : List (List Int)) :
    Except PyError (List (List Int) × List (List Int)) :=
  let batch := prompts.length
  let maxLen := maxPromptLen prompts
  let minLen := minPromptLen prompts
  let tokenIds := prompts.map (fun p => p ++ List.replicate (maxLen - p.length) IGNORE_ID)
  let _inputIds := prompts.map (fun p => p.take minLen)
  let sosRow := [List.replicate batch sosTok]
  match catDim1 sosRow tokenIds with
  | .error e => .error e
  | .ok tokenIds' =>
      match catDim1 sosRow tokenIds' with
      | .error e => .error e
      | .ok inputIds' => .ok (tokenIds', inputIds')

/-- `prompt_mask_tensor = token_ids_tensor != IGNORE_ID`. -/
def promptMaskOf (tok : List (List Int)) : List (List Bool) :=
  tok.map (fun row => row.map (fun x => x != IGNORE_ID))

/-- Entry `(i, j)` of a boolean grid (`false` outside). -/
def maskAt (pm : List (List Bool)) (i j : Nat) : Bool :=
  (pm.getD i []).getD j false

/-- Entry `(i, j)` of a token grid (`0` outside). -/
def entryAt (tok : List (List Int)) (i j : Nat) : Int :=
  (tok.getD i []).getD j 0

/-- One batched write of the decode loop (lines 162-168):
`output_token_ids = torch.where(curr_prompt_mask, curr_token_ids,
next_token_ids)` followed by `token_ids_tensor.index_copy_(1,
output_index, output_token_ids)`: row `i` gets, at column `j`, its own
current token when the prompt mask is true there and the sampled token
`next i` otherwise. -/
def writeColumn (pm : List (List Bool)) (j : Nat) (next : Nat → Int) :
    Nat → List (List Int) → List (List Int)
  | _, [] => []
  | i, row :: rows =>
      row.set j (if maskAt pm i j then row.getD j 0 else next i) ::
        writeColumn pm j next (i + 1) rows

/-- Width of the token buffer (all rows are built rectangular). -/
def tokenWidth (tok : List (List Int)) : Nat := (tok.headD []).length

/-- One iteration of the decode loop at write index `j`: the
`index_select`s of `prompt_mask_tensor` / `token_ids_tensor` at column
`j` and the `index_copy_` at column `j` need `j` inside the buffer
width; afterwards the iteration prepares the next step's attention mask
by `mask_tensor.index_select(2, [j])`, which needs `j` inside the mask
size (`generate` builds the mask of size `max_prompt_len`). -/
def decodeStepE (maskSize : Nat) (pm : List (List Bool)) (next : Nat → Int)
    (j : Nat) (tok : List (List Int)) : Except PyError (List (List Int)) :=
  if j < tokenWidth tok then
    let tok' := writeColumn pm j next 0 tok
    if j < maskSize then .ok tok' else .error .indexError
  else .error .indexError

/-- The decode loop (lines 150-178): `steps` iterations, writing at
columns `j, j+1, …`; the sampled token for example `i` at write index
`j` is `next j i` (the `sampler` applied to the decoder output — both
external collaborators — is abstracted by the oracle `next`). -/
def decodeLoopE (maskSize : Nat) (pm : List (List Bool)) (next : Nat → Nat → Int) :
    Nat → Nat → List (List Int) → Except PyError (List (List Int))
  | _, 0, tok => .ok tok
  | j, steps + 1, tok =>
      match decodeStepE maskSize pm (next j) j tok with
      | .error e => .error e
      | .ok tok' => decodeLoopE maskSize pm next (j + 1) steps tok'

/-- `tokens[len(p):len(p) + output_len]` (line 183). -/
def tokenSlice (p : List Int) (output_len : Nat) (tokens : List Int) : List Int :=
  (tokens.drop p.length).take output_len

/-- Lines 184-186: truncate at the first occurrence of the eos id. -/
def trimEos (eos : Int) (l : List Int) : List Int :=
  if eos ∈ l then l.take (l.indexOf eos) else l

/-- The per-example output extraction (lines 182-188). -/
def extractOne (eos : Int) (output_len : Nat) (p tokens : List Int) : List Int :=
  trimEos eos (tokenSlice p output_len tokens)

/-- `CausalLM.generate` (lines 82-190), end to end: batch statistics and
the capacity `assert`; the KV-cache build (whose loop header reads the
missing `self.config`); the buffer preparation with the sos
concatenations; the decode loop; the output extraction.  `cfgLayers` is
the value `self.config.num_hidden_layers` would have if the attribute
existed; `next` abstracts the decoder+sampler collaborators. -/
def generateE (dec : DecoderOnly) (cfgLayers : Nat) (sosTok eosTok : Int)
    (next : Nat → Nat → Int) (prompts : List (List Int)) (output_len : Nat) :
    Except PyError (List (List Int)) :=
  match minPromptLenE prompts, maxPromptLenE prompts with
  | .error e, _ => .error e
  | _, .error e => .error e
  | .ok minLen, .ok maxLen =>
      let maxSeq := maxLen + output_len
      if maxSeq ≤ dec.pos_enc_max_len then
        match readConfigLayers causalLMAttrs cfgLayers with
        | .error e => .error e
        | .ok nLayers =>
            let _kv := buildKvCaches nLayers prompts.length dec.n_kv_head minLen dec.head_dim
            match buildBuffers sosTok prompts with
            | .error e => .error e
            | .ok (tok, _inp) =>
                let pm := promptMaskOf tok
                match decodeLoopE maxLen pm next minLen (maxSeq - minLen) tok with
                | .error e => .error e
                | .ok tok' =>
                    .ok ((tok'.zip prompts).map
                      (fun pr => extractOne eosTok output_len pr.2 pr.1))
      else .error .configurationError

/-- On a batch of a single prompt `p` the buffer-preparation block
succeeds: the token buffer is `sos :: p` and — because the second
`torch.cat` reads the already-updated `token_ids_tensor` — the initial
decoder input is `sos :: sos :: p`. -/
theorem buildBuffers_singleton (sosTok : Int) (p : List Int) :
    buildBuffers sosTok [p] = .ok ([sosTok :: p], [sosTok :: sosTok :: p]) := by
  simp [buildBuffers, catDim1, maxPromptLen, minPromptLen, Nat.sub_self]

/-- C1: the claim says the KV cache reaching the first decoder step is one
zero-initialized (key, value) pair per decoder layer — `num_hidden_layers`
pairs in total.  In the source the loop body rebinds
`kv_caches = (k_cache, v_cache)` instead of appending, so with 2 layers
(batch 1, 1 kv head, min prompt length 2, head dim 1) the variable ends as
a single pair, not the claimed 2-element collection of pairs. -/
theorem kv_caches_collapse_to_single_pair :
    buildKvCaches 2 1 1 2 1 = KVCaches.pair (zeros4 1 1 2 1, zeros4 1 1 2 1) ∧
    buildKvCaches 2 1 1 2 1 ≠
      KVCaches.list [(zeros4 1 1 2 1, zeros4 1 1 2 1),
                     (zeros4 1 1 2 1, zeros4 1 1 2 1)] := by
  constructor
  · rfl
  · intro h
    exact KVCaches.noConfusion h

/-- C3: `generate` reads `self.config.num_hidden_layers`, but `"config"`
is not among the attributes `__init__` assigns, so a well-formed call
(non-empty batch, within the position capacity) fails with an
`AttributeError` before any buffer is filled — it never reaches the
decode loop, for every decoder/sampler oracle. -/
theorem generate_missing_config_attribute :
    "config" ∉ causalLMAttrs ∧
    generateE ⟨100, 1, 1⟩ 2 1 2 (fun _ _ => 9) [[5, 6, 7]] 3 =
      .error (.attributeError "config") := by
  constructor
  · decide
  · rfl

/-- C4: the claim says the initial decoder input is the SOS token followed
by the first `min_prompt_len` prompt tokens (width `min_prompt_len + 1`).
For `sos = 1` and the single prompt `[5, 6]` (so `min_prompt_len = 2`)
that would be `[1, 5, 6]`; the source instead concatenates SOS with the
already-SOS-prefixed `token_ids_tensor`, producing `[1, 1, 5, 6]` of
width `max_prompt_len + 2`, and discards the min-width working buffer. -/
theorem initial_input_double_sos :
    buildBuffers 1 [[5, 6]] = .ok ([[1, 5, 6]], [[1, 1, 5, 6]]) ∧
    ([[1, 1, 5, 6]] : List (List Int)) ≠ [[1, 5, 6]] := by
  constructor
  · rfl
  · decide

/-- C7: on prompts `[[5, 6, 7], [5, 6]]` with `output_len = 3` the claim
says the decode loop runs exactly 4 steps and terminates.  The call in
fact fails with the `AttributeError` on `self.config` before the loop is
ever entered (for every oracle value chosen here), and even the buffer
preparation preceding the loop is shape-invalid for a batch of two, so
zero decode steps run. -/
theorem scenario_batch2_never_reaches_loop :
    generateE ⟨100, 1, 1⟩ 2 1 2 (fun _ _ => 9) [[5, 6, 7], [5, 6]] 3 =
      .error (.attributeError "config") ∧
    buildBuffers 1 [[5, 6, 7], [5, 6]] = .error .shapeError := by
  constructor
  · rfl
  · rfl

/-- C9: a call with zero prompts is rejected — `min()` over the empty
generator of prompt lengths fails — before any buffer is allocated and
independently of the decoder/sampler oracle. -/
theorem empty_batch_rejected (dec : DecoderOnly) (cfgLayers : Nat)
    (sosTok eosTok : Int) (next : Nat → Nat → Int) (output_len : Nat) :
    generateE dec cfgLayers sosTok eosTok next [] output_len =
      .error .emptyBatch := rfl

/-- C8: if `max_prompt_len + output_len` exceeds the decoder's declared
maximum position, `generate` fails with the capacity assertion
(the spec's ConfigurationError) — for every decoder/sampler oracle, so
before any decoder invocation and with no partial results; within the
limit that error is never raised. -/
theorem configuration_error_iff_over_limit :
    (∀ (dec : DecoderOnly) (cfgLayers : Nat) (sosTok eosTok : Int)
        (next : Nat → Nat → Int) (prompts : List (List Int)) (output_len : Nat),
        prompts ≠ [] →
        dec.pos_enc_max_len < maxPromptLen prompts + output_len →
        generateE dec cfgLayers sosTok eosTok next prompts output_len =
          .error .configurationError) ∧
    (∀ (dec : DecoderOnly) (cfgLayers : Nat) (sosTok eosTok : Int)
        (next : Nat → Nat → Int) (prompts : List (List Int)) (output_len : Nat),
        maxPromptLen prompts + output_len ≤ dec.pos_enc_max_len →
        generateE dec cfgLayers sosTok eosTok next prompts output_len ≠
          .error .configurationError) := by
  constructor
  · intro dec cfgLayers sosTok eosTok next prompts output_len hne hlt
    match prompts with
    | p :: ps =>
        simp only [generateE, minPromptLenE, maxPromptLenE]
        rw [if_neg (by omega)]
  · intro dec cfgLayers sosTok eosTok next prompts output_len hle
    match prompts with
    | [] => simp [generateE, minPromptLenE]
    | p :: ps =>
        simp only [generateE, minPromptLenE, maxPromptLenE]
        rw [if_pos hle]
        have hcfg : readConfigLayers causalLMAttrs cfgLayers =
            .error (.attributeError "config") := rfl
        rw [hcfg]
        intro h
        exact PyError.noConfusion (Except.error.inj h)

/-- Closed witness for the ConfigurationError theorem: a prompt of
length 2 with `output_len = 20` overflows a capacity of 10; the same
prompt with `output_len = 3` does not. -/
theorem configuration_error_iff_over_limit_witness :
    generateE ⟨10, 1, 1⟩ 2 1 2 (fun _ _ => 9) [[5, 6]] 20 =
      .error .configurationError ∧
    generateE ⟨10, 1, 1⟩ 2 1 2 (fun _ _ => 9) [[5, 6]] 3 ≠
      .error .configurationError :=
  ⟨configuration_error_iff_over_limit.1 ⟨10, 1, 1⟩ 2 1 2 (fun _ _ => 9)
      [[5, 6]] 20 (by decide) (by decide),
   configuration_error_iff_over_limit.2 ⟨10, 1, 1⟩ 2 1 2 (fun _ _ => 9)
      [[5, 6]] 3 (by decide)⟩

/-- C10: the SOS tensor has shape `(1, batch_size)` and is concatenated
along the last dimension with the `(batch_size, max_prompt_len)` token
buffer, which is shape-valid only when `batch_size = 1`: every batch of
two or more prompts makes the buffer preparation fail with a shape
mismatch, a single-prompt batch passes it, and no multi-prompt call of
`generate` ever produces outputs. -/
theorem sos_cat_requires_batch_one :
    (∀ (sosTok : Int) (prompts : List (List Int)), 2 ≤ prompts.length →
        buildBuffers sosTok prompts = .error .shapeError) ∧
    (∀ (sosTok : Int) (p : List Int),
        ∃ out, buildBuffers sosTok [p] = .ok out) ∧
    (∀ (dec : DecoderOnly) (cfgLayers : Nat) (sosTok eosTok : Int)
        (next : Nat → Nat → Int) (prompts : List (List Int)) (output_len : Nat)
        (res : List (List Int)), 2 ≤ prompts.length →
        generateE dec cfgLayers sosTok eosTok next prompts output_len ≠
          .ok res) := by
  refine ⟨?_, ?_, ?_⟩
  · intro sosTok prompts h2
    have hne : (1 : Nat) ≠ prompts.length := by omega
    simp only [buildBuffers, catDim1, List.length_map, List.length_singleton]
    rw [if_neg hne]
  · intro sosTok p
    exact ⟨_, buildBuffers_singleton sosTok p⟩
  · intro dec cfgLayers sosTok eosTok next prompts output_len res h2 hok
    match prompts, h2 with
    | p :: ps, _ =>
        simp only [generateE, minPromptLenE, maxPromptLenE] at hok
        by_cases hcap : maxPromptLen (p :: ps) + output_len ≤ dec.pos_enc_max_len
        · rw [if_pos hcap] at hok
          have hcfg : readConfigLayers causalLMAttrs cfgLayers =
              .error (.attributeError "config") := rfl
          rw [hcfg] at hok
          exact Except.noConfusion hok
        · rw [if_neg hcap] at hok
          exact Except.noConfusion hok

/-- Closed witness for the SOS-concatenation theorem: a batch of two
singleton prompts fails the buffer preparation with a shape mismatch and
never yields outputs from `generate`. -/
theorem sos_cat_requires_batch_one_witness :
    buildBuffers 3 [[7], [8]] = .error .shapeError ∧
    generateE ⟨100, 1, 1⟩ 2 3 2 (fun _ _ => 9) [[7], [8]] 1 ≠ .ok [[9]] :=
  ⟨sos_cat_requires_batch_one.1 3 [[7], [8]] (by decide),
   sos_cat_requires_batch_one.2.2 ⟨100, 1, 1⟩ 2 3 2 (fun _ _ => 9)
      [[7], [8]] 1 [[9]] (by decide)⟩

/-- `List.indexOf` on a cons whose head matches. -/
theorem indexOf_cons_head (a : Int) (t : List Int) : (a :: t).indexOf a = 0 := by
  simp [List.indexOf, List.findIdx_cons]

/-- `List.indexOf` on a cons whose head differs. -/
theorem indexOf_cons_tail {a b : Int} (t : List Int) (h : b ≠ a) :
    (b :: t).indexOf a = t.indexOf a + 1 := by
  have hb : (b == a) = false := by simp [h]
  simp [List.indexOf, List.findIdx_cons, hb]

/-- Everything strictly before the first occurrence of `a` differs from `a`. -/
theorem not_mem_take_indexOf (a : Int) : ∀ l : List Int, a ∉ l.take (l.indexOf a)
  | [] => by simp
  | b :: t => by
      by_cases hba : b = a
      · subst hba
        rw [indexOf_cons_head]
        simp
      · rw [indexOf_cons_tail t hba, List.take_succ_cons]
        intro hmem
        rcases List.mem_cons.mp hmem with h | h
        · exact hba h.symm
        · exact not_mem_take_indexOf a t h

/-- Taking up to the first occurrence of a member yields exactly
`indexOf` many elements. -/
theorem length_take_indexOf (a : Int) : ∀ l : List Int, a ∈ l →
    (l.take (l.indexOf a)).length = l.indexOf a
  | [], hmem => absurd hmem (List.not_mem_nil a)
  | b :: t, hmem => by
      by_cases hba : b = a
      · subst hba
        rw [indexOf_cons_head]
        simp
      · have hat : a ∈ t := by
          rcases List.mem_cons.mp hmem with h | h
          · exact absurd h.symm hba
          · exact h
        rw [indexOf_cons_tail t hba, List.take_succ_cons, List.length_cons,
            length_take_indexOf a t hat]

/-- The eos trim never lengthens a list. -/
theorem trimEos_length_le (a : Int) (l : List Int) : (trimEos a l).length ≤ l.length := by
  unfold trimEos
  split
  · rw [List.length_take]
    exact Nat.min_le_right _ _
  · exact Nat.le_refl _

/-- C5: on the extracted continuation (`tokens[len(p):len(p)+output_len]`),
if the eos id occurs — `List.indexOf` being its 0-indexed first
occurrence, as Python's `list.index` — the returned sequence has exactly
`indexOf` tokens and contains no eos; a continuation without eos is
returned untruncated. -/
theorem eos_truncation_exact (eos : Int) (output_len : Nat) (p tokens : List Int) :
    (eos ∈ tokenSlice p output_len tokens →
      (extractOne eos output_len p tokens).length =
          (tokenSlice p output_len tokens).indexOf eos ∧
        eos ∉ extractOne eos output_len p tokens) ∧
    (eos ∉ tokenSlice p output_len tokens →
      extractOne eos output_len p tokens = tokenSlice p output_len tokens) := by
  constructor
  · intro hmem
    unfold extractOne trimEos
    rw [if_pos hmem]
    exact ⟨length_take_indexOf eos _ hmem, not_mem_take_indexOf eos _⟩
  · intro hmem
    unfold extractOne trimEos
    rw [if_neg hmem]

/-- Closed witness for the eos-truncation theorem: in the continuation
`[5, 9, 2]` (prompt `[5]`, buffer row `[1, 5, 9, 2, 7]`, `output_len = 3`)
the eos id 2 first occurs at position 2, so exactly 2 tokens come back and
none is the eos; with eos absent (`[1, 5, 9, 3, 7]`) nothing is cut. -/
theorem eos_truncation_exact_witness :
    (extractOne 2 3 [5] [1, 5, 9, 2, 7]).length = 2 ∧
    (2 : Int) ∉ extractOne 2 3 [5] [1, 5, 9, 2, 7] ∧
    extractOne 2 3 [5] [1, 5, 9, 3, 7] = tokenSlice [5] 3 [1, 5, 9, 3, 7] := by
  refine ⟨?_, ?_, ?_⟩
  · have h := ((eos_truncation_exact 2 3 [5] [1, 5, 9, 2, 7]).1 (by decide)).1
    rw [h]
    decide
  · exact ((eos_truncation_exact 2 3 [5] [1, 5, 9, 2, 7]).1 (by decide)).2
  · exact (eos_truncation_exact 2 3 [5] [1, 5, 9, 3, 7]).2 (by decide)

/-- C6, as claimed, is false: with `sos = 1`, prompt `[5]` and the single
generated token 9, the buffer row is `1 :: ([5] ++ [9])` and
`output_len = 1`; the claim says the continuation is the post-prompt
slice `[9]` with none of the prompt's own tokens, but the code returns
`[5]` — the prompt's last token. -/
theorem continuation_contains_prompt_token :
    extractOne 2 1 [5] ((1 : Int) :: ([5] ++ [9])) = [5] ∧
    extractOne 2 1 [5] ((1 : Int) :: ([5] ++ [9])) ≠ [9] ∧
    (5 : Int) ∈ extractOne 2 1 [5] ((1 : Int) :: ([5] ++ [9])) := by
  refine ⟨rfl, by decide, by decide⟩

/-- C6 amended: the pre-truncation continuation is the slice
`tokens[len(p) : len(p)+output_len]`, which — the buffer row being the
SOS token followed by the prompt — starts with the prompt's own last
token and then the first `output_len - 1` post-prompt entries (the slice
does not account for the SOS shifting positions by one); the final
returned sequence still has length at most `output_len`. -/
theorem continuation_slice_off_by_one :
    (∀ (sosTok : Int) (p rest : List Int) (output_len : Nat) (hp : p ≠ []),
        1 ≤ output_len →
        tokenSlice p output_len (sosTok :: (p ++ rest)) =
          p.getLast hp :: rest.take (output_len - 1)) ∧
    (∀ (eos : Int) (output_len : Nat) (p tokens : List Int),
        (extractOne eos output_len p tokens).length ≤ output_len) := by
  constructor
  · intro sosTok p rest output_len hp hout
    rcases List.eq_nil_or_concat p with rfl | ⟨q, a, hqa⟩
    · exact absurd rfl hp
    · rw [List.concat_eq_append] at hqa
      subst hqa
      obtain ⟨o, rfl⟩ : ∃ o, output_len = o + 1 := ⟨output_len - 1, by omega⟩
      have hlen : (q ++ [a]).length = q.length + 1 := by simp
      have hlast : (q ++ [a]).getLast hp = a := by
        rw [List.getLast_append' q [a] (by simp)]
        rfl
      unfold tokenSlice
      rw [hlen, hlast, List.drop_succ_cons,
          List.append_assoc, List.drop_left, List.singleton_append,
          List.take_succ_cons, Nat.add_sub_cancel]
  · intro eos output_len p tokens
    refine (trimEos_length_le eos _).trans ?_
    unfold tokenSlice
    rw [List.length_take]
    exact Nat.min_le_left _ _

/-- Closed witness for the amended continuation theorem: prompt `[5, 6]`,
post-prompt entries `[9, 8]`, `output_len = 2`: the slice is `[6, 9]`
(last prompt token, then one generated token); and a concrete length
bound instance. -/
theorem continuation_slice_off_by_one_witness :
    tokenSlice [5, 6] 2 ((1 : Int) :: ([5, 6] ++ [9, 8])) = [6, 9] ∧
    (extractOne 2 1 [5] [1, 5, 9]).length ≤ 1 := by
  constructor
  · rw [continuation_slice_off_by_one.1 1 [5, 6] [9, 8] 2 (by decide) (by decide)]
    decide
  · exact continuation_slice_off_by_one.2 2 1 [5] [1, 5, 9]

/-- `getD` through `List.set`: changed only at an in-bounds hit. -/
theorem getD_set (v d : Int) : ∀ (row : List Int) (j j' : Nat),
    (row.set j v).getD j' d =
      if j' = j ∧ j < row.length then v else row.getD j' d
  | [], j, j' => by simp
  | b :: t, 0, 0 => by simp
  | b :: t, 0, k + 1 => by simp
  | b :: t, m + 1, 0 => by simp
  | b :: t, m + 1, k + 1 => by
      simp only [List.set, List.getD_cons_succ, List.length_cons]
      rw [getD_set v d t m k]
      by_cases h1 : k = m
      · by_cases h2 : m < t.length <;> simp [h1, h2, Nat.succ_lt_succ_iff]
      · simp [h1]

/-- The row `i` of one batched write: row `i` of the input, with column
`j` set to its own column-`j` entry when the prompt mask is true there
and to the sampled token otherwise. -/
theorem writeColumn_getD (pm : List (List Bool)) (j : Nat) (next : Nat → Int) :
    ∀ (tok : List (List Int)) (i0 i : Nat),
      (writeColumn pm j next i0 tok).getD i [] =
        if i < tok.length then
          (tok.getD i []).set j
            (if maskAt pm (i0 + i) j then (tok.getD i []).getD j 0
             else next (i0 + i))
        else []
  | [], i0, i => by simp [writeColumn]
  | row :: rows, i0, 0 => by simp [writeColumn]
  | row :: rows, i0, i + 1 => by
      simp only [writeColumn, List.getD_cons_succ, List.length_cons]
      rw [writeColumn_getD pm j next rows (i0 + 1) i]
      have hadd : i0 + 1 + i = i0 + (i + 1) := by omega
      rw [hadd]
      by_cases h : i < rows.length <;> simp [h, Nat.succ_lt_succ_iff]

/-- A batched write never changes an entry whose prompt mask is true. -/
theorem writeColumn_masked (pm : List (List Bool)) (j : Nat) (next : Nat → Int)
    (tok : List (List Int)) (i j' : Nat) (hm : maskAt pm i j' = true) :
    entryAt (writeColumn pm j next 0 tok) i j' = entryAt tok i j' := by
  unfold entryAt
  rw [writeColumn_getD pm j next tok 0 i]
  by_cases hi : i < tok.length
  · rw [if_pos hi, Nat.zero_add, getD_set]
    by_cases hc : j' = j ∧ j < (tok.getD i []).length
    · rw [if_pos hc, ← hc.1, hm]
      simp
    · rw [if_neg hc]
  · rw [if_neg hi, List.getD_eq_default tok [] (Nat.le_of_not_lt hi)]

/-- Across any number of successful decode-loop iterations, entries whose
prompt mask is true keep their initial values. -/
theorem decodeLoopE_masked (maskSize : Nat) (pm : List (List Bool))
    (next : Nat → Nat → Int) :
    ∀ (steps j0 : Nat) (tok tok' : List (List Int)),
      decodeLoopE maskSize pm next j0 steps tok = .ok tok' →
      ∀ i j, maskAt pm i j = true → entryAt tok' i j = entryAt tok i j
  | 0, j0, tok, tok', h => by
      intro i j _
      rw [Except.ok.inj h]
  | steps + 1, j0, tok, tok', h => by
      intro i j hm
      unfold decodeLoopE at h
      cases hs : decodeStepE maskSize pm (next j0) j0 tok with
      | error e => rw [hs] at h; exact Except.noConfusion h
      | ok tokm =>
          rw [hs] at h
          have htail := decodeLoopE_masked maskSize pm next steps (j0 + 1)
            tokm tok' h i j hm
          unfold decodeStepE at hs
          by_cases hw : j0 < tokenWidth tok
          · rw [if_pos hw] at hs
            by_cases hmk : j0 < maskSize
            · rw [if_pos hmk] at hs
              rw [htail, ← Except.ok.inj hs]
              exact writeColumn_masked pm j0 (next j0) tok i j hm
            · rw [if_neg hmk] at hs
              exact Except.noConfusion hs
          · rw [if_neg hw] at hs
            exact Except.noConfusion hs

/-- Row `k` of `List.map` as a `getD`, for the prompt-mask computation. -/
theorem getD_map_bne (l : List Int) : ∀ (k : Nat), k < l.length →
    (l.map (fun x => x != IGNORE_ID)).getD k false = (l.getD k 0 != IGNORE_ID) := by
  induction l with
  | nil => intro k hk; simp at hk
  | cons b t ih =>
      intro k hk
      cases k with
      | zero => rfl
      | succ m =>
          simp only [List.map_cons, List.getD_cons_succ]
          exact ih m (by simpa using hk)

/-- C2: teacher forcing.  First: over any successful run of the decode
loop, every entry at which the prompt mask is true is written back as its
own current value — never the sampled token — so it keeps its initial
value.  Second, composed with the buffer preparation: when the buffers
come from `buildBuffers` (prompt tokens distinct from the sentinel), the
token-buffer entries covering the original prompt (positions `k + 1`,
after the prepended SOS) still equal the prompt's tokens exactly after
the loop. -/
theorem teacher_forcing_preserves_prompt :
    (∀ (maskSize : Nat) (pm : List (List Bool)) (next : Nat → Nat → Int)
        (j0 steps : Nat) (tok tok' : List (List Int)),
        decodeLoopE maskSize pm next j0 steps tok = .ok tok' →
        ∀ i j, maskAt pm i j = true → entryAt tok' i j = entryAt tok i j) ∧
    (∀ (sosTok : Int) (p : List Int) (tok0 inp : List (List Int))
        (next : Nat → Nat → Int) (maskSize steps : Nat)
        (tok' : List (List Int)),
        buildBuffers sosTok [p] = .ok (tok0, inp) →
        (∀ t ∈ p, t ≠ IGNORE_ID) →
        decodeLoopE maskSize (promptMaskOf tok0) next (minPromptLen [p]) steps
            tok0 = .ok tok' →
        ∀ k, k < p.length → entryAt tok' 0 (k + 1) = p.getD k 0) := by
  constructor
  · intro maskSize pm next j0 steps tok tok' h
    exact decodeLoopE_masked maskSize pm next steps j0 tok tok' h
  · intro sosTok p tok0 inp next maskSize steps tok' hb hsent hloop k hk
    rw [buildBuffers_singleton] at hb
    have htok0 : tok0 = [sosTok :: p] := (Prod.mk.injEq _ _ _ _ ▸ Except.ok.inj hb).1.symm
    subst htok0
    have hmask : maskAt (promptMaskOf [sosTok :: p]) 0 (k + 1) = true := by
      unfold promptMaskOf maskAt
      simp only [List.map_cons, List.getD_cons_zero, List.getD_cons_succ]
      rw [getD_map_bne p k hk]
      have hmem : p.getD k 0 ∈ p := by
        rw [List.getD_eq_getElem p 0 hk]
        exact List.getElem_mem hk
      simpa using hsent _ hmem
    have hpre := decodeLoopE_masked maskSize (promptMaskOf [sosTok :: p]) next
      steps (minPromptLen [p]) [sosTok :: p] tok' hloop 0 (k + 1) hmask
    rw [hpre]
    unfold entryAt
    simp

/-- Closed witness for the teacher-forcing theorem: buffers built for the
single prompt `[5, 6]` with `sos = 1` (token buffer `[[1, 5, 6]]`), one
successful loop iteration at write index 2 with a sampler that always
returns 9: the prompt entries (positions 1 and 2) are unchanged. -/
theorem teacher_forcing_preserves_prompt_witness :
    entryAt [[1, 5, 6]] 0 1 = 5 ∧ entryAt [[1, 5, 6]] 0 2 = 6 := by
  have h := teacher_forcing_preserves_prompt.2 1 [5, 6] [[1, 5, 6]]
    [[1, 1, 5, 6]] (fun _ _ => 9) 5 1 [[1, 5, 6]] (by decide) (by decide)
    (by decide)
  exact ⟨h 0 (by decide), h 1 (by decide)⟩

end Wenet
